import Mathlib

/-!
# Verification of the cargo-acap build-and-package core

A shallow embedding, in Lean 4, of the parts of the `cargo-acap` sources that
the specification talks about:

* `src/target.rs` — the target catalog (`Target`, `NoSuchTargetError`);
* `src/cargo_config.rs` — the raw project configuration (`CargoAcapMetadata`);
* `src/package_dot_conf.rs` — the resolved manifest (`PackageDotConf`), the
  builder `From<cargo::core::Package> for PackageDotConf`, and
  `serialize_other_files`;
* `src/cli/build.rs` — archive assembly (`BuildOp::package`, `tar_header`);
* `src/cli/mod.rs` — subprocess orchestration (`Invocation::run_to_completion`).

Rust machine integers are modelled as `Nat`/`Int` with explicit bounds where
overflow matters; panics and `std::process::exit` are modelled with `Except`.
-/

namespace CargoAcap

/-- A substring-occurrence predicate on character lists: `needle` occurs
contiguously inside `hay`. -/
def occursIn (needle hay : List Char) : Prop :=
  ∃ pre post, hay = pre ++ needle ++ post

theorem occursIn_append_left (needle pre hay : List Char)
    (h : occursIn needle hay) : occursIn needle (pre ++ hay) := by
  obtain ⟨p, q, rfl⟩ := h
  exact ⟨pre ++ p, q, by simp⟩

/-- Boolean check: does `hay` start with `needle`? -/
def leadsWith : List Char → List Char → Bool
  | [], _ => true
  | _ :: _, [] => false
  | a :: as, b :: bs => a == b && leadsWith as bs

/-- Boolean check: does `needle` occur contiguously in `hay`? -/
def occursCheck (needle : List Char) : List Char → Bool
  | [] => leadsWith needle []
  | hay@(_ :: rest) => leadsWith needle hay || occursCheck needle rest

theorem leadsWith_sound : ∀ needle hay : List Char,
    leadsWith needle hay = true → ∃ post, hay = needle ++ post
  | [], hay, _ => ⟨hay, rfl⟩
  | _ :: _, [], h => by simp [leadsWith] at h
  | a :: as, b :: bs, h => by
      simp only [leadsWith, Bool.and_eq_true, beq_iff_eq] at h
      obtain ⟨post, hpost⟩ := leadsWith_sound as bs h.2
      exact ⟨post, by simp [h.1, hpost]⟩

theorem occursCheck_sound : ∀ needle hay : List Char,
    occursCheck needle hay = true → occursIn needle hay := by
  intro needle hay
  induction hay with
  | nil =>
      intro h
      obtain ⟨post, hpost⟩ := leadsWith_sound needle [] h
      exact ⟨[], post, by simp [hpost]⟩
  | cons b bs ih =>
      intro h
      simp only [occursCheck, Bool.or_eq_true] at h
      rcases h with h | h
      · obtain ⟨post, hpost⟩ := leadsWith_sound needle (b :: bs) h
        exact ⟨[], post, by simp [hpost]⟩
      · exact occursIn_append_left needle [b] bs (ih h)

/-! ## Target catalog (`src/target.rs`) -/

/-- The supported build targets (`enum Target` in `src/target.rs`). -/
inductive Target
  | Aarch64
  | Armv5tej
  | Armv6
  | Armv7
  | Armv7Hf
  | Mips
deriving DecidableEq, Repr

/-- `Target::all()` -/
def Target.all : List Target :=
  [Target.Aarch64, Target.Armv5tej, Target.Armv6, Target.Armv7, Target.Armv7Hf, Target.Mips]

/-- `Target::name()` -/
def Target.name : Target → String
  | Target.Aarch64 => "aarch64"
  | Target.Armv5tej => "armv5tej"
  | Target.Armv6 => "armv6"
  | Target.Armv7 => "armv7"
  | Target.Armv7Hf => "armv7hf"
  | Target.Mips => "mips"

/-- `Target::rust_target_triple()` -/
def Target.rust_target_triple : Target → String
  | Target.Aarch64 => "aarch64-axis-linux-gnu"
  | Target.Armv5tej => "armv5te-axis-linux-gnueabi"
  | Target.Armv6 => "arm-axis-linux-gnueabi"
  | Target.Armv7 => "armv7-axis-linux-gnueabi"
  | Target.Armv7Hf => "armv7-axis-linux-gnueabihf"
  | Target.Mips => "mipsel-axis-linux-gnu"

/-- `struct NoSuchTargetError(String)` -/
structure NoSuchTargetError where
  s : String
deriving DecidableEq, Repr

/-- `impl FromStr for Target`: find the first target whose name or Rust triple
equals the input, else `NoSuchTargetError`. -/
def Target.from_str (s : String) : Except NoSuchTargetError Target :=
  match Target.all.find? (fun arch => arch.name == s || arch.rust_target_triple == s) with
  | some t => Except.ok t
  | none => Except.error ⟨s⟩

/-- `impl Display for NoSuchTargetError`: the header line followed by one
`"  * <name>"` fragment per supported target, written by a loop over
`Target::all()`. -/
def NoSuchTargetError.display (e : NoSuchTargetError) : String :=
  Target.all.foldl (fun acc arch => acc ++ ("  * " ++ arch.name))
    ("no such target: " ++ e.s ++ "\nexpected one of:\n")

/-! ## Raw project configuration (`src/cargo_config.rs`) and manifest enums -/

/-- `enum LicensePage` (`src/package_dot_conf.rs`), serde `rename_all = "snake_case"`. -/
inductive LicensePage
  | axis
  | custom
  | none
deriving DecidableEq, Repr

/-- Serde snake_case rendering of a `LicensePage` value. -/
def LicensePage.render : LicensePage → String
  | LicensePage.axis => "axis"
  | LicensePage.custom => "custom"
  | LicensePage.none => "none"

/-- `enum StartMode` (`src/package_dot_conf.rs`), serde `rename_all = "snake_case"`. -/
inductive StartMode
  | respawn
  | once
  | never
deriving DecidableEq, Repr

/-- Serde snake_case rendering of a `StartMode` value. -/
def StartMode.render : StartMode → String
  | StartMode.respawn => "respawn"
  | StartMode.once => "once"
  | StartMode.never => "never"

/-- `struct CargoAcapMetadata` (`src/cargo_config.rs`): the sparse raw project
configuration, every field optional.  `Default` makes every field `None`. -/
structure CargoAcapMetadata where
  app_name : Option String := Option.none
  display_name : Option String := Option.none
  menu_name : Option String := Option.none
  vendor : Option String := Option.none
  vendor_homepage_url : Option String := Option.none
  launch_arguments : Option String := Option.none
  license_check_arguments : Option String := Option.none
  axis_application_id : Option String := Option.none
  start_mode : Option StartMode := Option.none
  targets : Option (List Target) := Option.none
deriving DecidableEq, Repr

/-- A semantic version as the `semver` crate used by `cargo` exposes it:
numeric major/minor/patch plus lists of pre-release and build identifiers
(`Vec<Identifier>`, each rendered to a string). -/
structure Version where
  major : Nat
  minor : Nat
  patch : Nat
  pre : List String
  build : List String
deriving DecidableEq, Repr

/-! ## Resolved manifest (`src/package_dot_conf.rs`) -/

/-- `struct PackageDotConf`: the fully resolved manifest record. -/
structure PackageDotConf where
  app_name : String
  display_name : String
  menu_name : String
  axis_application_id : String
  vendor : String
  launch_arguments : Option String
  app_major_version : Int
  app_minor_version : Int
  app_micro_version : Option String
  other_files : List String
  license_page : LicensePage
  license_check_arguments : Option String
  settings_page_file : Option String
  settings_page_text : Option String
  vendor_homepage_link : Option String
  http_cgi_paths : Option String
  post_install_script : Option String
  required_embedded_development_version : String
  unix_user : String
  unix_group : String
  start_mode : StartMode
deriving DecidableEq, Repr

/-- The micro-version computation from `From<cargo::core::Package> for
PackageDotConf`: start from the decimal patch component, then append `"-"`
followed by each pre-release identifier in turn, then `"+"` followed by each
build identifier in turn. -/
def microVersion (version : Version) : String :=
  let s := toString version.patch
  let s := version.pre.foldl (fun s p => s ++ "-" ++ p) s
  let s := version.build.foldl (fun s b => s ++ "+" ++ b) s
  s

/-- `i32::MAX`, the bound enforced by `u64::try_into::<i32>()` for the major
and minor version components. -/
def i32Max : Nat := 2147483647

/-- `impl From<cargo::core::Package> for PackageDotConf` (`src/package_dot_conf.rs`
lines 119–211).  The `cargo::core::Package` input is represented by the parsed
`[package.metadata.acap]` table (if any), the package name, and the package
version.  The `panic!` on an out-of-range major/minor component is modelled as
`Except.error`. -/
def packageDotConf_from (acap_metadata : Option CargoAcapMetadata)
    (package_name : String) (version : Version) : Except String PackageDotConf :=
  let md := acap_metadata.getD {}
  let app_name := md.app_name.getD package_name
  let display_name := md.display_name.getD package_name
  let menu_name := md.menu_name.getD display_name
  let vendor := md.vendor.getD (display_name ++ " authors")
  let license_page :=
    if md.axis_application_id.isSome then LicensePage.axis
    else if md.license_check_arguments.isSome then LicensePage.custom
    else LicensePage.none
  let vendor_homepage_link :=
    md.vendor_homepage_url.map (fun url => "<a href=\"" ++ url ++ "\">" ++ vendor ++ "</a>")
  let start_mode := md.start_mode.getD StartMode.respawn
  if version.major > i32Max then Except.error "version out of range"
  else if version.minor > i32Max then Except.error "version out of range"
  else Except.ok
    { app_name := app_name
      display_name := display_name
      menu_name := menu_name
      axis_application_id := md.axis_application_id.getD ""
      vendor := vendor
      launch_arguments := md.launch_arguments
      app_major_version := (version.major : Int)
      app_minor_version := (version.minor : Int)
      app_micro_version := some (microVersion version)
      other_files := []
      license_page := license_page
      license_check_arguments := md.license_check_arguments
      settings_page_file := Option.none
      settings_page_text := Option.none
      vendor_homepage_link := vendor_homepage_link
      http_cgi_paths := Option.none
      post_install_script := Option.none
      required_embedded_development_version := "2.0"
      unix_user := "sdk"
      unix_group := "sdk"
      start_mode := start_mode }

/-- `serialize_other_files` (`src/package_dot_conf.rs` lines 219–231): fail
(`panic!`) if any listed file name contains a space, else join the names with
single spaces. -/
def serialize_other_files (other_files : List String) : Except String String :=
  match other_files.find? (fun f => f.data.contains ' ') with
  | some bad =>
      Except.error ("unable to serialize other_files=[" ++ bad ++ "] since it contains a space")
  | Option.none => Except.ok (" ".intercalate other_files)

/-- A `[k]` singleton line for a present optional field, nothing for an absent
one. -/
def optLine (key : String) : Option String → List (String × String)
  | some v => [(key, v)]
  | Option.none => []

/-- Modelled from the spec: the repository's `shell_includes::to_string`
serializer (module `shell_includes` is referenced by `src/package_dot_conf.rs`
but its source is not among the provided files).  Per spec §4.3/§6 it renders
the record as `KEY="value"` lines with the fixed serde key names declared in
`src/package_dot_conf.rs`, omits absent optional fields entirely, and fails
when `serialize_other_files` fails.  This function produces the key/value
pairs in field order. -/
def shellLinesList (c : PackageDotConf) (otherFiles : String) : List (String × String) :=
  [("APPNAME", c.app_name), ("PACKAGENAME", c.display_name), ("MENUNAME", c.menu_name),
    ("APPID", c.axis_application_id), ("VENDOR", c.vendor)]
  ++ optLine "APPOPTS" c.launch_arguments
  ++ [("APPMAJORVERSION", toString c.app_major_version),
      ("APPMINORVERSION", toString c.app_minor_version)]
  ++ optLine "APPMICROVERSION" c.app_micro_version
  ++ [("OTHERFILES", otherFiles), ("LICENSEPAGE", c.license_page.render)]
  ++ optLine "LICENSE_CHECK_ARGS" c.license_check_arguments
  ++ optLine "SETTINGSPAGEFILE" c.settings_page_file
  ++ optLine "SETTINGSPAGETEXT" c.settings_page_text
  ++ optLine "VENDORHOMEPAGELINK" c.vendor_homepage_link
  ++ optLine "HTTPCGIPATHS" c.http_cgi_paths
  ++ optLine "POSTINSTALLSCRIPT" c.post_install_script
  ++ [("REQEMBDEVVERSION", c.required_embedded_development_version),
      ("APPUSR", c.unix_user), ("APPGRP", c.unix_group),
      ("STARTMODE", c.start_mode.render)]

/-- Modelled from the spec: the serializer first runs `serialize_other_files`
(which can fail) and otherwise produces the key/value pairs of
`shellLinesList`. -/
def shellLines (c : PackageDotConf) : Except String (List (String × String)) :=
  match serialize_other_files c.other_files with
  | Except.error e => Except.error e
  | Except.ok otherFiles => Except.ok (shellLinesList c otherFiles)

/-- Modelled from the spec: one `KEY="value"` line per pair, newline
terminated (spec §4.3, §6 "Manifest text format"). -/
def renderLines (lines : List (String × String)) : String :=
  String.join (lines.map (fun kv => kv.1 ++ "=\"" ++ kv.2 ++ "\"\n"))

/-- Modelled from the spec: render the key/value pairs of `shellLines` as
newline-terminated `KEY="value"` assignments (spec §4.3, §6 "Manifest text
format"). -/
def shell_includes_to_string (c : PackageDotConf) : Except String String :=
  (shellLines c).map renderLines

/-- Number of lines carrying the given key. -/
def countKey (lines : List (String × String)) (key : String) : Nat :=
  (lines.filter (fun kv => kv.1 == key)).length

/-! ## Archive assembly (`src/cli/build.rs`) -/

/-- Tar entry types that matter here: the code only ever produces
`tar::EntryType::Regular` headers (and the `tar` crate writes regular-file
headers for plain files). -/
inductive EntryType
  | regular
  | nonRegular (code : Nat)
deriving DecidableEq, Repr

/-- The on-disk metadata of a file, as `std::fs::Metadata` exposes it to the
`tar` crate. -/
structure FileMeta where
  uid : Nat
  gid : Nat
  mode : Nat
  mtime : Nat
deriving DecidableEq, Repr

/-- A file on disk: its metadata and its content (byte length =
`content.utf8ByteSize`). -/
structure DiskFile where
  meta : FileMeta
  content : String
deriving DecidableEq, Repr

/-- A GNU tar header as the code populates it. -/
structure TarHeader where
  path : String
  mode : Nat
  uid : Nat
  gid : Nat
  mtime : Nat
  size : Nat
  entryType : EntryType
deriving DecidableEq, Repr

/-- One archive entry: a header plus the bytes written after it. -/
structure TarEntry where
  header : TarHeader
  content : String
deriving DecidableEq, Repr

/-- `tar_header` (`src/cli/build.rs` lines 222–238): a GNU header with mode
`0o644`, uid 0, gid 0, the given mtime in seconds (0 when absent), the given
size, and regular-file type. -/
def tar_header (path : String) (size : Nat) (mtime : Option Nat) : TarHeader :=
  { path := path
    mode := 0o644
    uid := 0
    gid := 0
    mtime := mtime.getD 0
    size := size
    entryType := EntryType.regular }

/-- `tar::Builder::append_file` of the `tar` crate (default
`HeaderMode::Complete`): the entry's header is populated from the file's
on-disk metadata — mode, uid, gid and mtime are taken from `file.metadata()`
and the size is the file's byte length. -/
def tar_append_file (path : String) (file : DiskFile) : TarEntry :=
  { header :=
      { path := path
        mode := file.meta.mode
        uid := file.meta.uid
        gid := file.meta.gid
        mtime := file.meta.mtime
        size := file.content.utf8ByteSize
        entryType := EntryType.regular }
    content := file.content }

/-- The outcome of `std::fs::File::open` on the optional `cgi.txt` file. -/
inductive OpenResult
  | found (file : DiskFile)
  | notFound
  | ioError (e : String)
deriving DecidableEq, Repr

/-- `BuildOp::package` (`src/cli/build.rs` lines 162–219), restricted to the
entries it appends to the tar stream.  Inputs: the resolved manifest (shared
across targets), the result of opening `<source>/cgi.txt`, the stripped
executable file, and the current wall-clock time in seconds.  The code clones
the manifest, sets `http_cgi_paths` only on the clone when `cgi.txt` exists,
serializes the clone as the `package.conf` entry via a fixed header, and
appends the executable under the (original) manifest's `app_name` via
`append_file`.  A non-not-found open error, or a serialization failure, is
fatal. -/
def BuildOp.package (package_conf : PackageDotConf) (cgi_txt : OpenResult)
    (executable : DiskFile) (now : Nat) : Except String (List TarEntry) :=
  match (match cgi_txt with
    | OpenResult.found f =>
        Except.ok ([tar_append_file "cgi.txt" f],
          { package_conf with http_cgi_paths := some "cgi.txt" })
    | OpenResult.notFound => Except.ok ([], package_conf)
    | OpenResult.ioError e => Except.error e) with
  | Except.error e => Except.error e
  | Except.ok (cgiEntries, package_conf2) =>
    match shell_includes_to_string package_conf2 with
    | Except.error e => Except.error e
    | Except.ok confText =>
        Except.ok (cgiEntries ++
          [{ header := tar_header "package.conf" confText.utf8ByteSize (some now)
             content := confText },
           tar_append_file package_conf.app_name executable])

/-! ## Subprocess orchestration (`src/cli/mod.rs`, `src/cli/build.rs`) -/

/-- The exit status of a waited-on subprocess: a numeric exit code, or death
by signal (in which case `ExitStatus::code()` is `None`). -/
inductive ExitStatus
  | exited (code : Int)
  | signaled (sig : Nat)
deriving DecidableEq, Repr

/-- `ExitStatus::success()`: exit code zero. -/
def ExitStatus.success : ExitStatus → Bool
  | ExitStatus.exited c => c == 0
  | ExitStatus.signaled _ => false

/-- `ExitStatus::code()`. -/
def ExitStatus.codeOf : ExitStatus → Option Int
  | ExitStatus.exited c => some c
  | ExitStatus.signaled _ => Option.none

/-- How a run of the whole process can terminate early: `std::process::exit`
with a code and the message printed just before, or a panic. -/
inductive Abort
  | exitWith (code : Int) (message : String)
  | panicked (message : String)
deriving DecidableEq, Repr

/-- `Invocation::run_to_completion` (`src/cli/mod.rs` lines 223–241): wait for
the command; on success return normally; on a non-zero exit code print the
failing command line and terminate the whole process with that same code; a
status with no code (signal) panics. -/
def run_to_completion (command : String) (status : ExitStatus) : Except Abort Unit :=
  if status.success then Except.ok ()
  else
    match status.codeOf with
    | some code =>
        Except.error (Abort.exitWith code
          ("`cargo acap` failed: `" ++ command ++ "` returned exit code " ++ toString code))
    | Option.none => Except.error (Abort.panicked "code() for failed exit status")

/-- The sequence of subprocess invocations a `build` run performs, in order
(compilations and strips across all requested targets), each given as the
command line and the exit status the subprocess reports.  `Build::invoke` /
`BuildOp::invoke` run each through `run_to_completion` strictly in order, so
a process exit propagates and nothing after it runs. -/
def runPipeline : List (String × ExitStatus) → Except Abort Unit
  | [] => Except.ok ()
  | step :: rest =>
      match run_to_completion step.1 step.2 with
      | Except.error a => Except.error a
      | Except.ok _ => runPipeline rest

/-- The micro-version string as the spec sentence describes it literally: the
decimal patch component, then a single `"-<pre-release>"` suffix if a
pre-release segment is present, then a single `"+<build-metadata>"` suffix if
build metadata is present, where pre-release and build metadata render as in
semver (identifiers joined by dots).  Stated for comparison against
`microVersion`, which is translated from the source. -/
def microVersionSpec (version : Version) : String :=
  toString version.patch
    ++ (if version.pre.isEmpty then "" else "-" ++ ".".intercalate version.pre)
    ++ (if version.build.isEmpty then "" else "+" ++ ".".intercalate version.build)

/-- The fixed serde key names of `PackageDotConf`, in field order
(`src/package_dot_conf.rs`). -/
def allManifestKeys : List String :=
  ["APPNAME", "PACKAGENAME", "MENUNAME", "APPID", "VENDOR", "APPOPTS",
   "APPMAJORVERSION", "APPMINORVERSION", "APPMICROVERSION", "OTHERFILES",
   "LICENSEPAGE", "LICENSE_CHECK_ARGS", "SETTINGSPAGEFILE", "SETTINGSPAGETEXT",
   "VENDORHOMEPAGELINK", "HTTPCGIPATHS", "POSTINSTALLSCRIPT",
   "REQEMBDEVVERSION", "APPUSR", "APPGRP", "STARTMODE"]

/-- The resolved manifest produced for the all-defaults `"demo"` project
(used as a concrete input below). -/
def demoConf : PackageDotConf :=
  { app_name := "demo"
    display_name := "demo"
    menu_name := "demo"
    axis_application_id := ""
    vendor := "demo authors"
    launch_arguments := Option.none
    app_major_version := 1
    app_minor_version := 0
    app_micro_version := some "0"
    other_files := []
    license_page := LicensePage.none
    license_check_arguments := Option.none
    settings_page_file := Option.none
    settings_page_text := Option.none
    vendor_homepage_link := Option.none
    http_cgi_paths := Option.none
    post_install_script := Option.none
    required_embedded_development_version := "2.0"
    unix_user := "sdk"
    unix_group := "sdk"
    start_mode := StartMode.respawn }

/-! ## Theorems -/

theorem countKey_append (a b : List (String × String)) (k : String) :
    countKey (a ++ b) k = countKey a k + countKey b k := by
  simp [countKey, List.filter_append]

theorem countKey_optLine_ne (k k' : String) (v : Option String) (h : (k' == k) = false) :
    countKey (optLine k' v) k = 0 := by
  cases v <;> simp [countKey, optLine, h]

theorem mem_optLine_iff (a b k : String) (v : Option String) :
    ((a, b) ∈ optLine k v) ↔ (a = k ∧ v = some b) := by
  cases v <;> simp [optLine, eq_comm]

theorem countKey_eq_count (lines : List (String × String)) (k : String) :
    countKey lines k = (lines.map Prod.fst).count k := by
  induction lines with
  | nil => rfl
  | cons kv rest ih =>
      cases h : kv.1 == k <;>
        simp [countKey, List.count_cons, List.filter_cons, h, ← ih]

theorem display_data (s : String) :
    (NoSuchTargetError.display ⟨s⟩).data =
      "no such target: ".data ++ (s.data ++
        ("\nexpected one of:\n  * aarch64  * armv5tej  * armv6  * armv7  * armv7hf  * mips").data) := by
  simp only [NoSuchTargetError.display, Target.all, Target.name, List.foldl,
    String.data_append, List.append_assoc]
  congr 1

/-- C2: for every supported target `t`, parsing `t.name()` and parsing
`t.rust_target_triple()` both return `Ok(t)`; and for any string that is
neither the name nor the triple of any supported target, parsing fails with a
`NoSuchTargetError` whose displayed message lists every valid target name. -/
theorem target_lookup_roundtrip_and_error :
    (∀ t ∈ Target.all,
        Target.from_str t.name = Except.ok t ∧
        Target.from_str t.rust_target_triple = Except.ok t) ∧
    (∀ s : String, (∀ t ∈ Target.all, t.name ≠ s ∧ t.rust_target_triple ≠ s) →
        Target.from_str s = Except.error ⟨s⟩ ∧
        ∀ t ∈ Target.all, occursIn t.name.data (NoSuchTargetError.display ⟨s⟩).data) := by
  constructor
  · intro t ht
    fin_cases ht <;> exact ⟨rfl, rfl⟩
  · intro s hs
    have hn : Target.all.find?
        (fun arch => arch.name == s || arch.rust_target_triple == s) = Option.none := by
      rw [List.find?_eq_none]
      intro t ht
      obtain ⟨h1, h2⟩ := hs t ht
      simp [h1, h2]
    refine ⟨by simp [Target.from_str, hn], ?_⟩
    intro t ht
    rw [display_data]
    apply occursIn_append_left
    apply occursIn_append_left
    fin_cases ht <;>
      exact occursCheck_sound _ _ (by decide)

/-- Witness for the error half of the round-trip theorem, at the concrete
input `"x86"`: parsing fails and the error message lists e.g. `"armv7hf"`. -/
theorem target_lookup_roundtrip_and_error_witness :
    Target.from_str "x86" = Except.error ⟨"x86"⟩ ∧
      occursIn (Target.name Target.Armv7Hf).data
        (NoSuchTargetError.display ⟨"x86"⟩).data := by
  have h := target_lookup_roundtrip_and_error.2 "x86" (by decide)
  exact ⟨h.1, h.2 Target.Armv7Hf (by decide)⟩

/-- C1: the license-page mode of the resolved manifest is derived solely from
the presence of the licensing ID and the license-check arguments: vendor-hosted
(`Axis`) whenever a licensing ID is present, otherwise custom whenever
license-check arguments are present, otherwise none — covering all four
presence combinations. -/
theorem license_page_derived (acap : Option CargoAcapMetadata) (package_name : String)
    (version : Version) (m : PackageDotConf)
    (h : packageDotConf_from acap package_name version = Except.ok m) :
    m.license_page =
      match (acap.getD {}).axis_application_id, (acap.getD {}).license_check_arguments with
      | some _, _ => LicensePage.axis
      | Option.none, some _ => LicensePage.custom
      | Option.none, Option.none => LicensePage.none := by
  simp only [packageDotConf_from] at h
  split at h
  · simp at h
  split at h
  · simp at h
  simp only [Except.ok.injEq] at h
  subst h
  cases hA : (acap.getD {}).axis_application_id <;>
    cases hL : (acap.getD {}).license_check_arguments <;>
      simp [hA, hL]

/-- Witness for the license-page derivation: with both a licensing ID and
license-check arguments present, vendor-hosted (`Axis`) wins. -/
theorem license_page_derived_witness :
    ∃ m, packageDotConf_from
        (some { axis_application_id := some "AXIS123", license_check_arguments := some "check" })
        "app" ⟨1, 2, 3, [], []⟩ = Except.ok m ∧
      m.license_page = LicensePage.axis := by
  have h : packageDotConf_from
      (some { axis_application_id := some "AXIS123", license_check_arguments := some "check" })
      "app" ⟨1, 2, 3, [], []⟩ = Except.ok
    { app_name := "app"
      display_name := "app"
      menu_name := "app"
      axis_application_id := "AXIS123"
      vendor := "app authors"
      launch_arguments := Option.none
      app_major_version := 1
      app_minor_version := 2
      app_micro_version := some "3"
      other_files := []
      license_page := LicensePage.axis
      license_check_arguments := some "check"
      settings_page_file := Option.none
      settings_page_text := Option.none
      vendor_homepage_link := Option.none
      http_cgi_paths := Option.none
      post_install_script := Option.none
      required_embedded_development_version := "2.0"
      unix_user := "sdk"
      unix_group := "sdk"
      start_mode := StartMode.respawn } := rfl
  exact ⟨_, h, license_page_derived _ _ _ _ h⟩

/-- C5: for a raw configuration with every field absent, short name `"demo"`
and version `1.0.0`, the resolved manifest has application, display and menu
name `"demo"`, vendor `"demo authors"`, respawn start mode, license-page mode
none, run-as user and group `"sdk"`, and the fixed `"2.0"` platform ABI
version. -/
theorem default_resolution_demo :
    packageDotConf_from Option.none "demo" ⟨1, 0, 0, [], []⟩ = Except.ok
      { app_name := "demo"
        display_name := "demo"
        menu_name := "demo"
        axis_application_id := ""
        vendor := "demo authors"
        launch_arguments := Option.none
        app_major_version := 1
        app_minor_version := 0
        app_micro_version := some "0"
        other_files := []
        license_page := LicensePage.none
        license_check_arguments := Option.none
        settings_page_file := Option.none
        settings_page_text := Option.none
        vendor_homepage_link := Option.none
        http_cgi_paths := Option.none
        post_install_script := Option.none
        required_embedded_development_version := "2.0"
        unix_user := "sdk"
        unix_group := "sdk"
        start_mode := StartMode.respawn } := rfl

theorem foldl_append_str : ∀ (l : List String) (s : String),
    l.foldl (· ++ ·) s = s ++ String.join l
  | [], s => by simp [String.join, List.foldl, String.append_empty]
  | a :: l, s => by
      simp only [List.foldl, String.join]
      rw [foldl_append_str l (s ++ a), foldl_append_str l ("" ++ a)]
      rw [String.empty_append, String.append_assoc]

theorem join_cons (a : String) (l : List String) :
    String.join (a :: l) = a ++ String.join l := by
  show List.foldl (· ++ ·) "" (a :: l) = a ++ String.join l
  simp only [List.foldl]
  rw [foldl_append_str l ("" ++ a), String.empty_append]

theorem foldl_sep_join (sep : String) : ∀ (l : List String) (s : String),
    l.foldl (fun acc p => acc ++ sep ++ p) s
      = s ++ String.join (l.map (fun p => sep ++ p))
  | [], s => by simp [String.join, List.foldl, String.append_empty]
  | p :: l, s => by
      simp only [List.foldl, List.map]
      rw [foldl_sep_join sep l (s ++ sep ++ p), join_cons]
      simp [String.append_assoc]

/-- C6 counterexample: for version `1.2.3-beta.2` (pre-release segment
`beta.2`, two identifiers) the code produces micro-version `"3-beta-2"`,
whereas the patch component followed by a `-<pre-release>` suffix would be
`"3-beta.2"`. -/
theorem micro_version_counterexample :
    microVersion ⟨1, 2, 3, ["beta", "2"], []⟩ = "3-beta-2" ∧
    microVersionSpec ⟨1, 2, 3, ["beta", "2"], []⟩ = "3-beta.2" ∧
    microVersion ⟨1, 2, 3, ["beta", "2"], []⟩
      ≠ microVersionSpec ⟨1, 2, 3, ["beta", "2"], []⟩ := by
  refine ⟨rfl, rfl, ?_⟩
  decide

/-- C6 (amended): the micro-version string is the decimal patch component,
followed by each pre-release identifier prefixed with `"-"`, followed by each
build identifier prefixed with `"+"`, in that order (so absent segments
contribute nothing); in particular version `1.2.3` yields exactly `"3"` and
version `1.2.3-beta+42` yields exactly `"3-beta+42"`. -/
theorem micro_version_amended (version : Version) :
    microVersion version =
      toString version.patch
        ++ String.join (version.pre.map (fun p => "-" ++ p))
        ++ String.join (version.build.map (fun b => "+" ++ b)) ∧
    microVersion ⟨1, 2, 3, [], []⟩ = "3" ∧
    microVersion ⟨1, 2, 3, ["beta"], ["42"]⟩ = "3-beta+42" := by
  refine ⟨?_, rfl, rfl⟩
  simp only [microVersion, foldl_sep_join]

/-- C4: in the serialized manifest, every optional field that is absent is
omitted entirely (its key does not appear at all, including launch
arguments), and when all optional fields are present every key appears
exactly once. -/
theorem optional_keys_omitted_or_once (c : PackageDotConf) (lines : List (String × String))
    (h : shellLines c = Except.ok lines) :
    ((c.launch_arguments = Option.none → countKey lines "APPOPTS" = 0) ∧
     (c.app_micro_version = Option.none → countKey lines "APPMICROVERSION" = 0) ∧
     (c.license_check_arguments = Option.none → countKey lines "LICENSE_CHECK_ARGS" = 0) ∧
     (c.settings_page_file = Option.none → countKey lines "SETTINGSPAGEFILE" = 0) ∧
     (c.settings_page_text = Option.none → countKey lines "SETTINGSPAGETEXT" = 0) ∧
     (c.vendor_homepage_link = Option.none → countKey lines "VENDORHOMEPAGELINK" = 0) ∧
     (c.http_cgi_paths = Option.none → countKey lines "HTTPCGIPATHS" = 0) ∧
     (c.post_install_script = Option.none → countKey lines "POSTINSTALLSCRIPT" = 0)) ∧
    (c.launch_arguments.isSome = true → c.app_micro_version.isSome = true →
     c.license_check_arguments.isSome = true → c.settings_page_file.isSome = true →
     c.settings_page_text.isSome = true → c.vendor_homepage_link.isSome = true →
     c.http_cgi_paths.isSome = true → c.post_install_script.isSome = true →
        lines.map Prod.fst = allManifestKeys ∧
        ∀ k ∈ allManifestKeys, countKey lines k = 1) := by
  revert h
  cases hs : serialize_other_files c.other_files with
  | error e => intro h; simp [shellLines, hs] at h
  | ok otherFiles =>
      intro h
      simp only [shellLines, hs, Except.ok.injEq] at h
      subst h
      constructor
      · refine ⟨?_, ?_, ?_, ?_, ?_, ?_, ?_, ?_⟩ <;>
          { intro heq
            simp [shellLinesList, heq, countKey_append, countKey, mem_optLine_iff]
            repeat' apply And.intro
            all_goals (intros; subst_vars; decide) }
      · intro h1 h2 h3 h4 h5 h6 h7 h8
        obtain ⟨v1, hv1⟩ := Option.isSome_iff_exists.mp h1
        obtain ⟨v2, hv2⟩ := Option.isSome_iff_exists.mp h2
        obtain ⟨v3, hv3⟩ := Option.isSome_iff_exists.mp h3
        obtain ⟨v4, hv4⟩ := Option.isSome_iff_exists.mp h4
        obtain ⟨v5, hv5⟩ := Option.isSome_iff_exists.mp h5
        obtain ⟨v6, hv6⟩ := Option.isSome_iff_exists.mp h6
        obtain ⟨v7, hv7⟩ := Option.isSome_iff_exists.mp h7
        obtain ⟨v8, hv8⟩ := Option.isSome_iff_exists.mp h8
        have hmap : (shellLinesList c otherFiles).map Prod.fst = allManifestKeys := by
          simp [shellLinesList, hv1, hv2, hv3, hv4, hv5, hv6, hv7, hv8, optLine,
            allManifestKeys]
        refine ⟨hmap, ?_⟩
        intro k hk
        rw [countKey_eq_count, hmap]
        revert hk
        revert k
        decide

/-- Witness for the serialization-key theorem at a concrete manifest with all
optional fields absent and one with all optional fields present. -/
theorem optional_keys_omitted_or_once_witness :
    (∃ lines, shellLines demoConf = Except.ok lines ∧
        countKey lines "APPOPTS" = 0 ∧ countKey lines "HTTPCGIPATHS" = 0) ∧
    (∃ lines, shellLines { demoConf with
          launch_arguments := some "-v"
          license_check_arguments := some "check"
          settings_page_file := some "settings.html"
          settings_page_text := some "Settings"
          vendor_homepage_link := some "link"
          http_cgi_paths := some "cgi.txt"
          post_install_script := some "post.sh" } = Except.ok lines ∧
        lines.map Prod.fst = allManifestKeys) := by
  constructor
  · have h : shellLines demoConf = Except.ok
        [("APPNAME", "demo"), ("PACKAGENAME", "demo"), ("MENUNAME", "demo"),
         ("APPID", ""), ("VENDOR", "demo authors"),
         ("APPMAJORVERSION", "1"), ("APPMINORVERSION", "0"),
         ("APPMICROVERSION", "0"), ("OTHERFILES", ""), ("LICENSEPAGE", "none"),
         ("REQEMBDEVVERSION", "2.0"), ("APPUSR", "sdk"), ("APPGRP", "sdk"),
         ("STARTMODE", "respawn")] := rfl
    have hc := optional_keys_omitted_or_once demoConf _ h
    exact ⟨_, h, hc.1.1 rfl, hc.1.2.2.2.2.2.2.1 rfl⟩
  · have h : shellLines { demoConf with
          launch_arguments := some "-v"
          license_check_arguments := some "check"
          settings_page_file := some "settings.html"
          settings_page_text := some "Settings"
          vendor_homepage_link := some "link"
          http_cgi_paths := some "cgi.txt"
          post_install_script := some "post.sh" } = Except.ok
        [("APPNAME", "demo"), ("PACKAGENAME", "demo"), ("MENUNAME", "demo"),
         ("APPID", ""), ("VENDOR", "demo authors"), ("APPOPTS", "-v"),
         ("APPMAJORVERSION", "1"), ("APPMINORVERSION", "0"),
         ("APPMICROVERSION", "0"), ("OTHERFILES", ""), ("LICENSEPAGE", "none"),
         ("LICENSE_CHECK_ARGS", "check"), ("SETTINGSPAGEFILE", "settings.html"),
         ("SETTINGSPAGETEXT", "Settings"), ("VENDORHOMEPAGELINK", "link"),
         ("HTTPCGIPATHS", "cgi.txt"), ("POSTINSTALLSCRIPT", "post.sh"),
         ("REQEMBDEVVERSION", "2.0"), ("APPUSR", "sdk"), ("APPGRP", "sdk"),
         ("STARTMODE", "respawn")] := rfl
    have hc := optional_keys_omitted_or_once _ _ h
    exact ⟨_, h, (hc.2 rfl rfl rfl rfl rfl rfl rfl rfl).1⟩

/-- C7: if any file name in the manifest's `other_files` list contains a
space, serializing the manifest fails (the `panic!` in
`serialize_other_files`); if no listed name contains a space, the
`OTHERFILES` field serializes as the single space-joined string of the
names. -/
theorem other_files_space_constraint (c : PackageDotConf) :
    ((∃ f ∈ c.other_files, f.data.contains ' ' = true) →
        ∃ e, shell_includes_to_string c = Except.error e) ∧
    ((∀ f ∈ c.other_files, f.data.contains ' ' = false) →
        shellLines c = Except.ok (shellLinesList c (" ".intercalate c.other_files)) ∧
        ("OTHERFILES", " ".intercalate c.other_files)
          ∈ shellLinesList c (" ".intercalate c.other_files)) := by
  constructor
  · intro hbad
    have hsome : (c.other_files.find? (fun f => f.data.contains ' ')).isSome := by
      rw [List.find?_isSome]
      obtain ⟨f, hf, hc⟩ := hbad
      exact ⟨f, hf, hc⟩
    obtain ⟨bad, hbadeq⟩ := Option.isSome_iff_exists.mp hsome
    exact ⟨"unable to serialize other_files=[" ++ bad ++ "] since it contains a space",
      by simp only [shell_includes_to_string, shellLines, serialize_other_files, hbadeq,
        Except.map]⟩
  · intro hgood
    have hnone : c.other_files.find? (fun f => f.data.contains ' ') = Option.none := by
      rw [List.find?_eq_none]
      intro f hf
      simpa using hgood f hf
    refine ⟨by simp only [shellLines, serialize_other_files, hnone], ?_⟩
    simp [shellLinesList]

/-- Witness for the space constraint: `["a b"]` fails to serialize, while
`["a", "b"]` serializes `OTHERFILES` as `"a b"`. -/
theorem other_files_space_constraint_witness :
    (∃ e, shell_includes_to_string { demoConf with other_files := ["a b"] }
        = Except.error e) ∧
    ("OTHERFILES", "a b")
      ∈ shellLinesList { demoConf with other_files := ["a", "b"] } "a b" := by
  constructor
  · exact (other_files_space_constraint _).1 ⟨"a b", by decide, by decide⟩
  · have h := (other_files_space_constraint
      { demoConf with other_files := ["a", "b"] }).2 (by decide)
    exact h.2

/-- C10: when no licensing ID is supplied, the resolved manifest's `APPID`
field is the empty string and it is still serialized (the `APPID` key appears,
exactly once, with value `""`). -/
theorem appid_empty_but_serialized (acap : Option CargoAcapMetadata)
    (package_name : String) (version : Version) (m : PackageDotConf)
    (hno : (acap.getD {}).axis_application_id = Option.none)
    (h : packageDotConf_from acap package_name version = Except.ok m) :
    m.axis_application_id = "" ∧
    shellLines m = Except.ok (shellLinesList m "") ∧
    ("APPID", "") ∈ shellLinesList m "" ∧
    countKey (shellLinesList m "") "APPID" = 1 := by
  simp only [packageDotConf_from] at h
  split at h
  · simp at h
  split at h
  · simp at h
  simp only [Except.ok.injEq] at h
  subst h
  refine ⟨by simp [hno], rfl, ?_, ?_⟩
  · simp [shellLinesList, hno]
  · simp [shellLinesList, hno, countKey_append, countKey, mem_optLine_iff]
    repeat' apply And.intro
    all_goals (intros; subst_vars; decide)

/-- Witness: the all-defaults `"demo"` manifest has `APPID = ""` and its
serialization contains the `APPID` key exactly once. -/
theorem appid_empty_but_serialized_witness :
    ∃ m, packageDotConf_from Option.none "demo" ⟨1, 0, 0, [], []⟩ = Except.ok m ∧
      m.axis_application_id = "" ∧
      ("APPID", "") ∈ shellLinesList m "" ∧
      countKey (shellLinesList m "") "APPID" = 1 := by
  have h : packageDotConf_from Option.none "demo" ⟨1, 0, 0, [], []⟩
      = Except.ok demoConf := rfl
  have hc := appid_empty_but_serialized Option.none "demo" _ _ rfl h
  exact ⟨demoConf, h, hc.1, hc.2.2.1, hc.2.2.2⟩

theorem to_string_of_serialize (c : PackageDotConf) (ofs : String)
    (hser : serialize_other_files c.other_files = Except.ok ofs) :
    shell_includes_to_string c = Except.ok (renderLines (shellLinesList c ofs)) := by
  simp only [shell_includes_to_string, shellLines, hser, Except.map]

/-- C3 counterexample: packaging the all-defaults `"demo"` manifest with an
executable whose on-disk metadata is uid 1000, gid 1000, mode `0o755`
produces an archive in which not every entry has uid 0, gid 0 and mode
`0o644`: the executable entry (appended via `tar::Builder::append_file`)
carries the file's own metadata. -/
theorem entry_metadata_counterexample :
    ∃ entries, BuildOp.package demoConf OpenResult.notFound
        ⟨⟨1000, 1000, 0o755, 5⟩, "ELF"⟩ 42 = Except.ok entries ∧
      ¬ (∀ e ∈ entries, e.header.uid = 0 ∧ e.header.gid = 0 ∧
          e.header.mode = 0o644 ∧ e.header.entryType = EntryType.regular ∧
          e.header.size = e.content.utf8ByteSize) := by
  refine ⟨_, rfl, ?_⟩
  intro hall
  have h := hall (tar_append_file demoConf.app_name ⟨⟨1000, 1000, 0o755, 5⟩, "ELF"⟩)
    (by simp)
  simp [tar_append_file] at h

/-- C3 (amended): in every successfully produced archive, every entry is a
regular file whose size field equals the byte length of its content; the
manifest (`package.conf`) entry has uid 0, gid 0, mode `0o644` and the
current mtime; the executable entry is the last entry and carries the
executable file's on-disk metadata; and when the auxiliary `cgi.txt` file is
present its entry comes first and carries that file's on-disk metadata. -/
theorem entry_metadata_amended (package_conf : PackageDotConf) (cgi_txt : OpenResult)
    (executable : DiskFile) (now : Nat) (entries : List TarEntry)
    (h : BuildOp.package package_conf cgi_txt executable now = Except.ok entries) :
    (∀ e ∈ entries, e.header.entryType = EntryType.regular ∧
        e.header.size = e.content.utf8ByteSize) ∧
    (∃ e ∈ entries, e.header.path = "package.conf" ∧ e.header.uid = 0 ∧
        e.header.gid = 0 ∧ e.header.mode = 0o644 ∧ e.header.mtime = now) ∧
    entries.getLast? = some (tar_append_file package_conf.app_name executable) ∧
    (∀ f, cgi_txt = OpenResult.found f →
        entries.head? = some (tar_append_file "cgi.txt" f)) := by
  revert h
  cases cgi_txt with
  | ioError e => intro h; simp [BuildOp.package] at h
  | notFound =>
      cases hser : shell_includes_to_string package_conf with
      | error e => intro h; simp [BuildOp.package, hser] at h
      | ok t =>
          intro h
          simp only [BuildOp.package, hser, Except.ok.injEq] at h
          subst h
          refine ⟨?_, ?_, by simp, by simp⟩
          · intro e he
            simp only [List.nil_append, List.mem_cons, List.not_mem_nil, or_false] at he
            rcases he with rfl | rfl <;> simp [tar_header, tar_append_file]
          · exact ⟨_, List.mem_cons_self _ _, by simp [tar_header]⟩
  | found f =>
      cases hser : shell_includes_to_string
          { package_conf with http_cgi_paths := some "cgi.txt" } with
      | error e => intro h; simp [BuildOp.package, hser] at h
      | ok t =>
          intro h
          simp only [BuildOp.package, hser, Except.ok.injEq] at h
          subst h
          refine ⟨?_, ?_, by simp, by simp [tar_append_file]⟩
          · intro e he
            simp only [List.cons_append, List.nil_append, List.mem_cons,
              List.not_mem_nil, or_false] at he
            rcases he with rfl | rfl | rfl <;> simp [tar_header, tar_append_file]
          · exact ⟨_, List.mem_cons_of_mem _ (List.mem_cons_self _ _),
              by simp [tar_header]⟩

/-- Witness for the amended entry-metadata theorem, at a concrete packaging
run with the auxiliary file present. -/
theorem entry_metadata_amended_witness :
    ∃ entries, BuildOp.package demoConf (OpenResult.found ⟨⟨7, 8, 0o600, 9⟩, "CGI"⟩)
        ⟨⟨1000, 1000, 0o755, 5⟩, "ELF"⟩ 42 = Except.ok entries ∧
      (∀ e ∈ entries, e.header.entryType = EntryType.regular ∧
          e.header.size = e.content.utf8ByteSize) ∧
      (∃ e ∈ entries, e.header.path = "package.conf" ∧ e.header.uid = 0 ∧
          e.header.gid = 0 ∧ e.header.mode = 0o644 ∧ e.header.mtime = 42) := by
  have h : BuildOp.package demoConf (OpenResult.found ⟨⟨7, 8, 0o600, 9⟩, "CGI"⟩)
      ⟨⟨1000, 1000, 0o755, 5⟩, "ELF"⟩ 42 = Except.ok
        (BuildOp.package demoConf (OpenResult.found ⟨⟨7, 8, 0o600, 9⟩, "CGI"⟩)
            ⟨⟨1000, 1000, 0o755, 5⟩, "ELF"⟩ 42 |>.toOption.getD []) := rfl
  have hc := entry_metadata_amended _ _ _ _ _ h
  exact ⟨_, h, hc.1, hc.2.1⟩

/-- C8: with no auxiliary file the archive has exactly the two entries
manifest-then-executable and serializes the manifest as passed in (its
CGI-path field untouched); with the auxiliary file present it has exactly
three entries, and only the private copy of the manifest that is serialized
into the archive has the CGI-path field set — the copy agrees with the
original on every other field, and the original value is what the packaging
of any other target receives. -/
theorem package_entries_and_frame (package_conf : PackageDotConf)
    (f executable : DiskFile) (now : Nat) (ofs : String)
    (hser : serialize_other_files package_conf.other_files = Except.ok ofs) :
    (BuildOp.package package_conf OpenResult.notFound executable now = Except.ok
        [{ header := tar_header "package.conf"
              (renderLines (shellLinesList package_conf ofs)).utf8ByteSize (some now)
           content := renderLines (shellLinesList package_conf ofs) },
         tar_append_file package_conf.app_name executable]) ∧
    (BuildOp.package package_conf (OpenResult.found f) executable now = Except.ok
        [tar_append_file "cgi.txt" f,
         { header := tar_header "package.conf"
              (renderLines (shellLinesList
                { package_conf with http_cgi_paths := some "cgi.txt" } ofs)).utf8ByteSize
              (some now)
           content := renderLines (shellLinesList
              { package_conf with http_cgi_paths := some "cgi.txt" } ofs) },
         tar_append_file package_conf.app_name executable]) ∧
    ({ package_conf with http_cgi_paths := some "cgi.txt" }.http_cgi_paths
        = some "cgi.txt") ∧
    ({ package_conf with http_cgi_paths := some "cgi.txt" }.app_name
          = package_conf.app_name ∧
      { package_conf with http_cgi_paths := some "cgi.txt" }.display_name
          = package_conf.display_name ∧
      { package_conf with http_cgi_paths := some "cgi.txt" }.menu_name
          = package_conf.menu_name ∧
      { package_conf with http_cgi_paths := some "cgi.txt" }.axis_application_id
          = package_conf.axis_application_id ∧
      { package_conf with http_cgi_paths := some "cgi.txt" }.vendor
          = package_conf.vendor ∧
      { package_conf with http_cgi_paths := some "cgi.txt" }.launch_arguments
          = package_conf.launch_arguments ∧
      { package_conf with http_cgi_paths := some "cgi.txt" }.app_major_version
          = package_conf.app_major_version ∧
      { package_conf with http_cgi_paths := some "cgi.txt" }.app_minor_version
          = package_conf.app_minor_version ∧
      { package_conf with http_cgi_paths := some "cgi.txt" }.app_micro_version
          = package_conf.app_micro_version ∧
      { package_conf with http_cgi_paths := some "cgi.txt" }.other_files
          = package_conf.other_files ∧
      { package_conf with http_cgi_paths := some "cgi.txt" }.license_page
          = package_conf.license_page ∧
      { package_conf with http_cgi_paths := some "cgi.txt" }.license_check_arguments
          = package_conf.license_check_arguments ∧
      { package_conf with http_cgi_paths := some "cgi.txt" }.settings_page_file
          = package_conf.settings_page_file ∧
      { package_conf with http_cgi_paths := some "cgi.txt" }.settings_page_text
          = package_conf.settings_page_text ∧
      { package_conf with http_cgi_paths := some "cgi.txt" }.vendor_homepage_link
          = package_conf.vendor_homepage_link ∧
      { package_conf with http_cgi_paths := some "cgi.txt" }.post_install_script
          = package_conf.post_install_script ∧
      { package_conf with http_cgi_paths := some "cgi.txt" }.required_embedded_development_version
          = package_conf.required_embedded_development_version ∧
      { package_conf with http_cgi_paths := some "cgi.txt" }.unix_user
          = package_conf.unix_user ∧
      { package_conf with http_cgi_paths := some "cgi.txt" }.unix_group
          = package_conf.unix_group ∧
      { package_conf with http_cgi_paths := some "cgi.txt" }.start_mode
          = package_conf.start_mode) := by
  have hser2 : serialize_other_files
      ({ package_conf with http_cgi_paths := some "cgi.txt" } : PackageDotConf).other_files
        = Except.ok ofs := hser
  refine ⟨?_, ?_, rfl, rfl, rfl, rfl, rfl, rfl, rfl, rfl, rfl, rfl, rfl, rfl, rfl,
    rfl, rfl, rfl, rfl, rfl, rfl, rfl, rfl⟩
  · simp only [BuildOp.package, to_string_of_serialize package_conf ofs hser,
      List.nil_append]
  · simp only [BuildOp.package, to_string_of_serialize _ ofs hser2, List.cons_append,
      List.nil_append]

/-- Witness for the packaging frame theorem: a concrete two-entry and a
concrete three-entry packaging of the `"demo"` manifest. -/
theorem package_entries_and_frame_witness :
    ∃ twoEntries threeEntries,
      BuildOp.package demoConf OpenResult.notFound ⟨⟨1000, 1000, 0o755, 5⟩, "ELF"⟩ 42
          = Except.ok twoEntries ∧
      twoEntries.length = 2 ∧
      BuildOp.package demoConf (OpenResult.found ⟨⟨7, 8, 0o600, 9⟩, "CGI"⟩)
          ⟨⟨1000, 1000, 0o755, 5⟩, "ELF"⟩ 42 = Except.ok threeEntries ∧
      threeEntries.length = 3 := by
  have h := package_entries_and_frame demoConf ⟨⟨7, 8, 0o600, 9⟩, "CGI"⟩
    ⟨⟨1000, 1000, 0o755, 5⟩, "ELF"⟩ 42 "" rfl
  exact ⟨_, _, h.1, rfl, h.2.1, rfl⟩

theorem run_to_completion_ok (cmd : String) (st : ExitStatus)
    (h : st.success = true) : run_to_completion cmd st = Except.ok () := by
  simp [run_to_completion, h]

theorem runPipeline_ok (l : List (String × ExitStatus))
    (h : ∀ p ∈ l, p.2.success = true) : runPipeline l = Except.ok () := by
  induction l with
  | nil => rfl
  | cons p rest ih =>
      simp only [runPipeline, run_to_completion_ok p.1 p.2 (h p (by simp))]
      exact ih (fun q hq => h q (by simp [hq]))

theorem runPipeline_append (pre l : List (String × ExitStatus))
    (hpre : ∀ p ∈ pre, p.2.success = true) :
    runPipeline (pre ++ l) = runPipeline l := by
  induction pre with
  | nil => rfl
  | cons p rest ih =>
      simp only [List.cons_append, runPipeline,
        run_to_completion_ok p.1 p.2 (hpre p (by simp))]
      exact ih (fun q hq => hpre q (by simp [hq]))

/-- C9: when a subprocess in the pipeline reports a non-zero exit code, the
whole run terminates with exactly that code after printing a message
containing the failing command line, and nothing after that subprocess (in
this or any later target) runs — the result does not depend on the remaining
steps; when every subprocess succeeds, the pipeline runs to completion
normally. -/
theorem subprocess_failure_aborts (pre rest : List (String × ExitStatus))
    (cmd : String) (code : Int)
    (hpre : ∀ p ∈ pre, p.2.success = true) (hcode : code ≠ 0) :
    runPipeline (pre ++ (cmd, ExitStatus.exited code) :: rest)
        = Except.error (Abort.exitWith code
            ("`cargo acap` failed: `" ++ cmd ++ "` returned exit code "
              ++ toString code)) ∧
    occursIn cmd.data
      ("`cargo acap` failed: `" ++ cmd ++ "` returned exit code "
        ++ toString code).data ∧
    ∀ l : List (String × ExitStatus), (∀ p ∈ l, p.2.success = true) →
      runPipeline l = Except.ok () := by
  refine ⟨?_, ?_, fun l hl => runPipeline_ok l hl⟩
  · rw [runPipeline_append _ _ hpre]
    have hsucc : (ExitStatus.exited code).success = false := by
      simp [ExitStatus.success, hcode]
    simp [runPipeline, run_to_completion, hsucc, ExitStatus.codeOf]
  · exact ⟨"`cargo acap` failed: `".data,
      ("` returned exit code " ++ toString code).data,
      by simp [String.data_append]⟩

/-- Witness: a pipeline whose second subprocess exits with code 101 aborts
with code 101, the message names the failing command, and the third step is
never reached. -/
theorem subprocess_failure_aborts_witness :
    runPipeline [("docker run build", ExitStatus.exited 0),
        ("docker run objcopy", ExitStatus.exited 101),
        ("docker run later", ExitStatus.exited 0)]
      = Except.error (Abort.exitWith 101
          "`cargo acap` failed: `docker run objcopy` returned exit code 101") ∧
    occursIn "docker run objcopy".data
      "`cargo acap` failed: `docker run objcopy` returned exit code 101".data := by
  have h := subprocess_failure_aborts [("docker run build", ExitStatus.exited 0)]
    [("docker run later", ExitStatus.exited 0)] "docker run objcopy" 101
    (by decide) (by decide)
  exact ⟨h.1, h.2.1⟩

end CargoAcap
